import Mathlib

/-!
Shallow embedding of `crates/proto/src/quic/quic_stream.rs` (DNS-over-QUIC
per-stream framing and DoQ error-code codec), together with theorems that
settle the specification's claims against it.

Machine integers are modelled as `Nat`; bytes are `Nat` values below 256.
The build target modelled is the crate's usual 64-bit little-endian platform
(x86_64 / aarch64 Linux), which fixes the meaning of `usize::to_ne_bytes`
(8 bytes, least-significant first) and `u16::from_ne_bytes` (little-endian).
-/

namespace Doq

/-- Error kinds of `ProtoError` / `ProtoErrorKind` that this module can
surface: transport end-of-stream (`Io(UnexpectedEof)`), DNS codec failure
(`Serialization`), the DoQ id-zero violation (`QuicMessageIdNot0`), and the
oversize error (`MessageTooLarge`) named by the error taxonomy. -/
inductive ProtoError where
  | ioUnexpectedEof : ProtoError
  | serializationFailure : ProtoError
  | quicMessageIdNot0 : Nat → ProtoError
  | messageTooLarge : ProtoError
deriving DecidableEq

/-- Modelled from the spec: the external DNS `Message` of §3/§6 is opaque to
this core; it only needs a mutable 16-bit ID field (wire offsets 0-1,
big-endian) and the bytes that follow it. `id` is the header ID, `body` the
remaining serialized bytes (a full message has at least 10 of them, since a
DNS header is 12 bytes). -/
structure Message where
  id : Nat
  body : List Nat
deriving DecidableEq

/-- Embedding of `Message::set_id` (external DNS codec interface): overwrite
the 16-bit ID field. -/
def Message.set_id (m : Message) (i : Nat) : Message :=
  { m with id := i }

/-- Modelled from the spec: `serialize(message) -> bytes` of §6 — the ID at
byte offsets 0-1 in big-endian order, followed by the rest of the message. -/
def Message.to_vec (m : Message) : List Nat :=
  m.id / 256 % 256 :: m.id % 256 :: m.body

/-- Modelled from the spec: `parse(bytes) -> message | SerializationError`
of §6 — a DNS message carries at least a 12-byte header (§4.2), whose first
two bytes are the big-endian ID. -/
def Message.from_vec (bs : List Nat) : Except ProtoError Message :=
  if bs.length < 12 then Except.error ProtoError.serializationFailure
  else
    match bs with
    | b0 :: b1 :: rest => Except.ok ⟨b0 * 256 + b1, rest⟩
    | _ => Except.error ProtoError.serializationFailure

/-! ### DoQ error codes (lines 43-103 of the source) -/

def NO_ERROR : Nat := 0x0

def INTERNAL_ERROR : Nat := 0x1

def PROTOCOL_ERROR : Nat := 0x2

def REQUEST_CANCELLED : Nat := 0x3

def EXCESSIVE_LOAD : Nat := 0x4

def ERROR_RESERVED : Nat := 0xd098ea5e

/-- Embedding of `enum DoqErrorCode`. The Rust `Unknown` variant carries a
`u32`, so an `unknown` payload is meaningful only below `2 ^ 32`. -/
inductive DoqErrorCode where
  | noError : DoqErrorCode
  | internalError : DoqErrorCode
  | protocolError : DoqErrorCode
  | requestCancelled : DoqErrorCode
  | excessiveLoad : DoqErrorCode
  | errorReserved : DoqErrorCode
  | unknown : Nat → DoqErrorCode
deriving DecidableEq

/-- Embedding of `impl From<DoqErrorCode> for VarInt` (source lines 69-83).
A QUIC `VarInt` is modelled as its `Nat` value; `VarInt::from_u32` is the
inclusion of the 32-bit value. -/
def DoqErrorCode.encode : DoqErrorCode → Nat
  | DoqErrorCode.noError => NO_ERROR
  | DoqErrorCode.internalError => INTERNAL_ERROR
  | DoqErrorCode.protocolError => PROTOCOL_ERROR
  | DoqErrorCode.requestCancelled => REQUEST_CANCELLED
  | DoqErrorCode.excessiveLoad => EXCESSIVE_LOAD
  | DoqErrorCode.errorReserved => ERROR_RESERVED
  | DoqErrorCode.unknown code => code

/-- Embedding of `impl From<VarInt> for DoqErrorCode` (source lines 85-103):
`doq_error.into_inner().try_into()` succeeds exactly when the varint value
fits in a `u32`, i.e. is below `2 ^ 32`; otherwise the function returns
`ProtocolError` early. The successful value then dispatches against the six
known codes, defaulting to `Unknown`. -/
def DoqErrorCode.decode (v : Nat) : DoqErrorCode :=
  if v < 2 ^ 32 then
    if v = NO_ERROR then DoqErrorCode.noError
    else if v = INTERNAL_ERROR then DoqErrorCode.internalError
    else if v = PROTOCOL_ERROR then DoqErrorCode.protocolError
    else if v = REQUEST_CANCELLED then DoqErrorCode.requestCancelled
    else if v = EXCESSIVE_LOAD then DoqErrorCode.excessiveLoad
    else if v = ERROR_RESERVED then DoqErrorCode.errorReserved
    else DoqErrorCode.unknown v
  else DoqErrorCode.protocolError

/-! ### The stream framer (lines 105-164 of the source) -/

/-- Embedding of `bytes.len().to_ne_bytes()` at source line 129: `len` is a
`usize`, so on the 64-bit little-endian target this is EIGHT bytes,
least-significant byte first — not the 2-octet big-endian prefix the quoted
RFC text in the source demands. -/
def usizeToNeBytes (n : Nat) : List Nat :=
  [n % 256, n / 256 % 256, n / 256 ^ 2 % 256, n / 256 ^ 3 % 256,
   n / 256 ^ 4 % 256, n / 256 ^ 5 % 256, n / 256 ^ 6 % 256, n / 256 ^ 7 % 256]

/-- Embedding of `QuicStream::send` (source lines 118-134), parameterized by
the external serializer `to_vec` so that serializer failure (`?` at line 123)
is representable. Result: the outcome paired with the bytes appended to the
send half. The code sets the ID to 0, serializes, builds the native-endian
`usize` length prefix, and writes prefix plus payload; there is no size
check and no error path after serialization succeeds. -/
def sendWith (to_vec : Message → Except ProtoError (List Nat)) (message : Message) :
    Except ProtoError Unit × List Nat :=
  let message := message.set_id 0
  match to_vec message with
  | Except.error e => (Except.error e, [])
  | Except.ok bytes =>
      let len := usizeToNeBytes bytes.length
      (Except.ok (), len ++ bytes)

/-- `QuicStream::send` with the (spec-modelled) DNS codec serializer, which
succeeds on every representable message. -/
def send (message : Message) : Except ProtoError Unit × List Nat :=
  sendWith (fun m => Except.ok m.to_vec) message

/-- Embedding of `QuicStream::receive` (source lines 143-164). The input is
the byte sequence available on the receive half before the peer closes.
Line 146 reads exactly two octets (`Io(UnexpectedEof)` if fewer arrive);
line 147 decodes them with `u16::from_ne_bytes`, i.e. little-endian on the
modelled target; line 153 allocates `vec![0; len]`; line 154 calls
`read_exact` on the payload but never awaits the returned future, so the
buffer still holds `len` zeros when line 156 parses it; lines 159-161 reject
a parsed message whose ID is non-zero. -/
def receive (input : List Nat) : Except ProtoError Message :=
  match input with
  | b0 :: b1 :: _ =>
      let len := b0 + 256 * b1
      let bytes := List.replicate len 0
      match Message.from_vec bytes with
      | Except.error e => Except.error e
      | Except.ok message =>
          if message.id ≠ 0 then Except.error (ProtoError.quicMessageIdNot0 message.id)
          else Except.ok message
  | _ => Except.error ProtoError.ioUnexpectedEof

/-- State of the send half visible to `finish`: whether the underlying
stream's finish primitive has already succeeded. -/
structure SendHalf where
  finished : Bool
deriving DecidableEq

/-- Modelled from the spec: the underlying QUIC send half's finish primitive
(§6 collaborator interface). Finishing an already-finished stream is the
benign-error case of §4.2; it is modelled as a failure whose kind is
irrelevant, since `QuicStream::finish` discards it. -/
def SendHalf.finishPrim (s : SendHalf) : Except ProtoError SendHalf :=
  if s.finished then Except.error ProtoError.ioUnexpectedEof
  else Except.ok { s with finished := true }

/-- Embedding of `QuicStream::finish` (source lines 137-141): it invokes the
underlying finish primitive, ignores its result entirely, and returns
`Ok(())`. -/
def finish (s : SendHalf) : Except ProtoError Unit × SendHalf :=
  let next := match s.finishPrim with
    | Except.ok t => t
    | Except.error _ => s
  (Except.ok (), next)

/-! ### Helper lemmas -/

theorem usizeToNeBytes_length (n : Nat) : (usizeToNeBytes n).length = 8 := rfl

theorem send_fst (m : Message) : (send m).1 = Except.ok () := rfl

theorem send_snd (i : Nat) (b : List Nat) :
    (send ⟨i, b⟩).2 = usizeToNeBytes (b.length + 2) ++ (0 :: 0 :: b) := by
  show usizeToNeBytes (((⟨i, b⟩ : Message).set_id 0).to_vec).length ++
      ((⟨i, b⟩ : Message).set_id 0).to_vec =
    usizeToNeBytes (b.length + 2) ++ (0 :: 0 :: b)
  simp [Message.to_vec, Message.set_id]

theorem from_vec_replicate_zero (n : Nat) (h : 12 ≤ n) :
    Message.from_vec (List.replicate n 0) = Except.ok ⟨0, List.replicate (n - 2) 0⟩ := by
  obtain ⟨k, rfl⟩ : ∃ k, n = k + 2 := ⟨n - 2, by omega⟩
  rw [List.replicate_succ, List.replicate_succ]
  unfold Message.from_vec
  rw [if_neg (by simp only [List.length_cons, List.length_replicate]; omega)]
  norm_num

theorem receive_cons (b0 b1 : Nat) (rest : List Nat) (h : 12 ≤ b0 + 256 * b1) :
    receive (b0 :: b1 :: rest) = Except.ok ⟨0, List.replicate (b0 + 256 * b1 - 2) 0⟩ := by
  simp [receive, from_vec_replicate_zero _ h]

/-! ### Claim theorems -/

/-- C1: the claim says `send` appends exactly `2 + len` bytes, a two-octet
big-endian length prefix followed by the payload. Evaluating the code at a
message whose serialization is 12 bytes long: it appends 20 = 8 + 12 bytes,
and the first two octets on the wire are `[0x0C, 0x00]` — the low bytes of
an 8-byte little-endian `usize` — not the big-endian `[0x00, 0x0C]`. -/
theorem C1_send_appends_native_8_byte_prefix :
    (send ⟨0, List.replicate 10 0⟩).2.length = 20 ∧
    (send ⟨0, List.replicate 10 0⟩).2.take 2 = [12, 0] := by
  decide

/-- C2: the claim says `receive` decodes the two length octets big-endian
and then reads exactly `len` payload octets, failing with
`Io(UnexpectedEof)` when the stream closes early. Evaluating the code on
the spec's scenario S3 — the peer sends `[0x00, 0x02, 0x12]` and closes —
the code decodes the length little-endian as 512 (not 2), never awaits the
payload read, parses the untouched zero buffer, and returns a successfully
decoded all-zero message instead of the claimed `Io(UnexpectedEof)`. -/
theorem C2_receive_never_reads_payload :
    receive [0x00, 0x02, 0x12] = Except.ok ⟨0, List.replicate 510 0⟩ := by
  rw [receive_cons 0x00 0x02 [0x12] (by norm_num)]

/-- C3: the claim says a paired `send(M)` / `receive()` over the same byte
stream yields `M` with its ID set to 0. Evaluating the code at a 12-byte
message whose last body byte is 1: `receive` returns the all-zero message
`⟨0, replicate 10 0⟩` — because the payload bytes are never read into the
buffer — which differs from `M` with ID 0. -/
theorem C3_roundtrip_loses_payload :
    receive (send ⟨0, [0, 0, 0, 0, 0, 0, 0, 0, 0, 1]⟩).2 =
      Except.ok ⟨0, List.replicate 10 0⟩ ∧
    (⟨0, [0, 0, 0, 0, 0, 0, 0, 0, 0, 1]⟩ : Message) ≠ ⟨0, List.replicate 10 0⟩ :=
  ⟨rfl, by decide⟩

/-- C4: the claim says `send` of a message whose serialization exceeds
65535 bytes fails with `MessageTooLarge` and writes zero bytes. Evaluating
the code at a message serializing to 65536 bytes: `send` succeeds and
appends 65544 = 8 + 65536 bytes — the code has no size check at all. -/
theorem C4_send_accepts_oversize_message :
    (send ⟨0, List.replicate 65534 0⟩).1 = Except.ok () ∧
    (send ⟨0, List.replicate 65534 0⟩).2.length = 65544 := by
  refine ⟨send_fst _, ?_⟩
  rw [send_snd, List.length_append, usizeToNeBytes_length, List.length_cons,
    List.length_cons, List.length_replicate]

/-- C5: the claim says an inbound frame whose payload decodes to a message
with non-zero ID makes `receive` fail with `QuicMessageIdNot0(observed)`.
Evaluating the code at the spec's scenario S2 — frame
`00 0C BE EF 00 ×10`, whose payload is a header with ID `0xBEEF` — the code
decodes the length little-endian as 3072, never reads the payload, parses a
3072-zero buffer, and returns a message with ID 0 instead of failing with
`QuicMessageIdNot0(0xBEEF)`. -/
theorem C5_nonzero_id_frame_not_rejected :
    receive ([0x00, 0x0C, 0xBE, 0xEF] ++ List.replicate 10 0) =
      Except.ok ⟨0, List.replicate 3070 0⟩ := by
  rw [List.cons_append, List.cons_append, List.cons_append, List.cons_append,
    List.nil_append, receive_cons 0x00 0x0C _ (by norm_num)]

/-- C6: the claim says that after `send(M)` the wire holds `0x00 0x00` at
offsets 2 and 3, the DNS header ID position immediately after the 2-byte
length prefix. Evaluating the code at a message with ID `0x1234` and
12-byte serialization: the ID is indeed zeroed before serializing, but the
length prefix is 8 bytes (`[0x0C, 0, 0, 0, 0, 0, 0, 0]`), so the zeroed ID
octets sit at offsets 8 and 9, and offset 0 carries `0x0C` where the claimed
layout puts the big-endian prefix byte `0x00`. -/
theorem C6_id_zeroed_but_at_offsets_8_9 :
    (send ⟨0x1234, List.replicate 10 0⟩).2 =
      [12, 0, 0, 0, 0, 0, 0, 0] ++ (0 :: 0 :: List.replicate 10 0) := by
  decide

/-- C7: the DoQ error-code codec round-trips: each of the six named
variants decodes back from its encoding, and every raw value below `2 ^ 32`
that is none of the six known codes satisfies
`encode (unknown raw) = raw` and `decode raw = unknown raw`. -/
theorem C7_codec_roundtrip :
    (DoqErrorCode.decode (DoqErrorCode.encode DoqErrorCode.noError) = DoqErrorCode.noError ∧
     DoqErrorCode.decode (DoqErrorCode.encode DoqErrorCode.internalError) = DoqErrorCode.internalError ∧
     DoqErrorCode.decode (DoqErrorCode.encode DoqErrorCode.protocolError) = DoqErrorCode.protocolError ∧
     DoqErrorCode.decode (DoqErrorCode.encode DoqErrorCode.requestCancelled) = DoqErrorCode.requestCancelled ∧
     DoqErrorCode.decode (DoqErrorCode.encode DoqErrorCode.excessiveLoad) = DoqErrorCode.excessiveLoad ∧
     DoqErrorCode.decode (DoqErrorCode.encode DoqErrorCode.errorReserved) = DoqErrorCode.errorReserved) ∧
    ∀ raw : Nat, raw < 2 ^ 32 →
      raw ≠ NO_ERROR → raw ≠ INTERNAL_ERROR → raw ≠ PROTOCOL_ERROR →
      raw ≠ REQUEST_CANCELLED → raw ≠ EXCESSIVE_LOAD → raw ≠ ERROR_RESERVED →
      DoqErrorCode.encode (DoqErrorCode.unknown raw) = raw ∧
      DoqErrorCode.decode raw = DoqErrorCode.unknown raw := by
  constructor
  · decide
  · intro raw hlt h0 h1 h2 h3 h4 h5
    refine ⟨rfl, ?_⟩
    have hlt' : raw < 4294967296 := by norm_num at hlt; exact hlt
    simp [DoqErrorCode.decode, hlt', h0, h1, h2, h3, h4, h5]

/-- Witness for C7 at the concrete unknown code 5. -/
theorem C7_codec_roundtrip_witness :
    DoqErrorCode.encode (DoqErrorCode.unknown 5) = 5 ∧
    DoqErrorCode.decode 5 = DoqErrorCode.unknown 5 :=
  C7_codec_roundtrip.2 5 (by decide) (by decide) (by decide) (by decide)
    (by decide) (by decide) (by decide)

/-- C8: `decode` is a total function over `Nat` (hence over the 62-bit QUIC
varint range) and, for every raw value in `[2 ^ 32, 2 ^ 62)` — a varint
exceeding `0xFFFF_FFFF` — it returns `ProtocolError`; `encode` is likewise a
total function. -/
theorem C8_decode_large_is_protocol_error :
    ∀ raw : Nat, 2 ^ 32 ≤ raw → raw < 2 ^ 62 →
      DoqErrorCode.decode raw = DoqErrorCode.protocolError := by
  intro raw h1 _
  norm_num at h1
  simp [DoqErrorCode.decode, Nat.not_lt.mpr h1]

/-- Witness for C8 at the concrete value `2 ^ 32`. -/
theorem C8_decode_large_is_protocol_error_witness :
    DoqErrorCode.decode (2 ^ 32) = DoqErrorCode.protocolError :=
  C8_decode_large_is_protocol_error (2 ^ 32) (le_refl _) (by norm_num)

/-- C9: if serializing the (id-zeroed) message fails, `send` propagates that
error and appends no bytes to the send half: the `?` on `to_vec` at source
line 123 runs before any write. Stated over an arbitrary serializer, since
the DNS codec is external to this module. -/
theorem C9_serialization_error_writes_nothing :
    ∀ (to_vec : Message → Except ProtoError (List Nat)) (message : Message) (e : ProtoError),
      to_vec (message.set_id 0) = Except.error e →
      sendWith to_vec message = (Except.error e, []) := by
  intro f m e h
  simp [sendWith, h]

/-- Witness for C9 with a serializer that always fails. -/
theorem C9_serialization_error_writes_nothing_witness :
    sendWith (fun _ => Except.error ProtoError.serializationFailure) ⟨7, []⟩ =
      (Except.error ProtoError.serializationFailure, []) :=
  C9_serialization_error_writes_nothing
    (fun _ => Except.error ProtoError.serializationFailure) ⟨7, []⟩
    ProtoError.serializationFailure rfl

/-- C10: `finish` is infallible at this layer: on every state of the send
half it returns success, and calling it again on the resulting state — an
already-finished stream, whose underlying primitive errors — still returns
success, because the code discards the primitive's result and returns
`Ok(())` unconditionally. -/
theorem C10_finish_infallible :
    ∀ s : SendHalf, (finish s).1 = Except.ok () ∧
      (finish (finish s).2).1 = Except.ok () :=
  fun _ => ⟨rfl, rfl⟩

end Doq
